import Mathlib

/-!
Verification development for the student-notes-summarizer application
(`src/summariser_app.py`), a single Streamlit script.  The script's
session state, its two text extractors, its Summarize-button handler and
its summary/download rendering block are embedded as pure Lean
definitions.  External libraries (PyMuPDF page iteration, python-docx
paragraph iteration, the Gemini `generate_content` call) are modelled as
function parameters: a parse front-end yields either the list of
page/paragraph texts or an error (a raised exception), and the backend
call yields either the response text or an error.  Streamlit banner
calls (`st.error`, `st.warning`, `st.success`, `st.info`) are modelled
as a list of messages emitted by each handler.
-/

namespace SummariserApp

/-- Raw uploaded file bytes. -/
abbrev Bytes := List Nat

/-- A parse front-end: library call turning bytes into the list of page
texts (PDF via `fitz.open` + `page.get_text()`) or paragraph texts
(DOCX via `Document` + `para.text`).  `Except.error e` models the
library raising an exception with message `e`. -/
abbrev ParseFun := Bytes → Except String (List String)

/-- A Streamlit banner message (`st.error` / `st.warning` /
`st.success` / `st.info`). -/
inductive Msg where
  | error : String → Msg
  | warning : String → Msg
  | success : String → Msg
  | info : String → Msg
deriving DecidableEq, Repr

/-- The per-session mutable record of the script:
`st.session_state.full_notes_text`, `st.session_state.summarized_text`,
`st.session_state.uploaded_file_name` (lines 73-78, all initialised to
`""`). -/
structure SessionState where
  full_notes_text : String
  summarized_text : String
  uploaded_file_name : String
deriving DecidableEq, Repr

/-- The initial session state: all three fields start as `""`. -/
def initState : SessionState :=
  { full_notes_text := "", summarized_text := "", uploaded_file_name := "" }

/-- `extract_text_pdf` (lines 32-49): `text = ""`, then for each page
`text += page.get_text()`; on any exception the `st.error` banner is
shown (display-only side effect, not part of the returned value) and
`""` is returned. -/
def extract_text_pdf (fitz_open : ParseFun) (file_bytes : Bytes) : String :=
  match fitz_open file_bytes with
  | Except.ok pages => pages.foldl (fun text page => text ++ page) ""
  | Except.error _ => ""

/-- `extract_text_docx` (lines 51-68): `text = ""`, then for each
paragraph `text += para.text + "\n"`; on any exception the `st.error`
banner is shown (display-only) and `""` is returned. -/
def extract_text_docx (document_open : ParseFun) (file_bytes : Bytes) : String :=
  match document_open file_bytes with
  | Except.ok paras => paras.foldl (fun text para => text ++ para ++ "\n") ""
  | Except.error _ => ""

/-- The two radio choices of line 81-85. -/
inductive DocType where
  | pdf
  | docx
deriving DecidableEq, Repr

/-- Lines 98-102: dispatch to the extractor matching the selected
document type. -/
def selected_extract (doc_type : DocType) (fitz_open document_open : ParseFun)
    (file_bytes : Bytes) : String :=
  match doc_type with
  | DocType.pdf => extract_text_pdf fitz_open file_bytes
  | DocType.docx => extract_text_docx document_open file_bytes

/-- An apostrophe character, used inside banner texts. -/
def sq : Char := '\x27'

/-- The `st.info` text of line 108. -/
def upload_info_msg : String :=
  "Now, click " ++ sq.toString ++ "Summarize Notes" ++ sq.toString ++
    " to get your summary!"

/-- The `st.warning` text of line 110. -/
def upload_warning_msg : String :=
  "Could not extract text from the document. Please try another file."

/-- The upload-processing block (lines 94-110): extract text with the
selected extractor, store it in `full_notes_text`, store the uploaded
file name, then show either the success + info banners (non-empty
result) or the warning banner (empty result).  Both session-state
assignments happen before the emptiness test. -/
def upload_handler (doc_type : DocType) (fitz_open document_open : ParseFun)
    (s : SessionState) (file_bytes : Bytes) (file_name : String) :
    SessionState × List Msg :=
  let s1 : SessionState :=
    { s with
      full_notes_text := selected_extract doc_type fitz_open document_open file_bytes,
      uploaded_file_name := file_name }
  if s1.full_notes_text = "" then
    (s1, [Msg.warning upload_warning_msg])
  else
    (s1, [Msg.success (s1.uploaded_file_name ++ " uploaded and text extracted successfully!"),
          Msg.info upload_info_msg])

/-- The fixed instructional prompt of lines 118-125, with the extracted
notes appended verbatim at the end. -/
def prompt_template : String :=
  "Please provide a concise and clear summary of the following student notes. " ++
  "Focus on the main concepts, key facts, and important details. " ++
  "Organize the summary logically, perhaps using bullet points or short paragraphs. " ++
  "Ensure the summary is easy to understand for a student revising the material. " ++
  "Here are the notes:\n\n"

/-- The `st.error` text of line 133. -/
def missing_key_msg : String :=
  "Cannot summarize without a Gemini API key. Please check your setup."

/-- The `st.warning` text of line 135. -/
def empty_input_msg : String :=
  "Please upload a document first before attempting to summarize."

/-- The Summarize-button block (lines 113-135).  `GEMINI_API_KEY` is
the environment credential; `os.getenv` yields `None` when unset, and
the script only ever tests its truthiness, so the absent / empty-string
credential is modelled uniformly as `""`.  `generate_content` models
`model.generate_content(prompt).text`: the response text on success,
`Except.error e` when the call raises.  On success the response text is
stored; on failure the error banner is shown and `summarized_text` is
cleared; with a missing key the error banner of line 133 is shown; with
empty extracted text (and a key present) the warning of line 135 is
shown.  The two guard branches leave the state untouched. -/
def summarize_handler (GEMINI_API_KEY : String)
    (generate_content : String → Except String String)
    (s : SessionState) : SessionState × List Msg :=
  if s.full_notes_text ≠ "" ∧ GEMINI_API_KEY ≠ "" then
    match generate_content (prompt_template ++ s.full_notes_text) with
    | Except.ok response_text =>
        ({ s with summarized_text := response_text }, [])
    | Except.error e =>
        ({ s with summarized_text := "" },
         [Msg.error ("Error generating summary from Gemini: " ++ e)])
  else if GEMINI_API_KEY = "" then
    (s, [Msg.error missing_key_msg])
  else
    (s, [Msg.warning empty_input_msg])

/-- Index of the last occurrence of `c` in the list, if any
(Python `str.rfind`, as used by `posixpath.splitext`). -/
def rfindChar (c : Char) : List Char → Option Nat
  | [] => none
  | x :: xs =>
    match rfindChar c xs with
    | some i => some (i + 1)
    | none => if x = c then some 0 else none

/-- `os.path.splitext(p)[0]` on Linux (`posixpath.splitext` with
separator `/` and extension separator `.`): split off the part from the
last dot onward, provided that dot lies after the last `/` and some
non-dot character stands between them (leading dots of the base name
are not an extension). -/
def splitext_root (p : String) : String :=
  let cs := p.toList
  let sepIndex : Int := match rfindChar '/' cs with
    | some i => (i : Int)
    | none => -1
  let dotIndex : Int := match rfindChar '.' cs with
    | some i => (i : Int)
    | none => -1
  if sepIndex < dotIndex then
    let filenameIndex := (sepIndex + 1).toNat
    let between := (cs.drop filenameIndex).take (dotIndex.toNat - filenameIndex)
    if between.any (fun ch => ch ≠ '.') then
      String.mk (cs.take dotIndex.toNat)
    else p
  else p

/-- The consolidated display block (lines 140-151): when
`summarized_text` is non-empty, the summary is written and a download
button is offered whose data is the summary verbatim and whose file
name is `summarized_notes_<splitext-root-of-stored-filename>.txt`;
otherwise nothing is rendered.  The result is
`some (download data, download file name)` or `none`. -/
def summary_display (s : SessionState) : Option (String × String) :=
  if s.summarized_text = "" then none
  else
    some (s.summarized_text,
      "summarized_notes_" ++ splitext_root s.uploaded_file_name ++ ".txt")

/-- The claim-side reading of the DOCX contract: each paragraph's text
followed by a newline, concatenated in order. -/
def docx_joined : List String → String
  | [] => ""
  | p :: ps => p ++ "\n" ++ docx_joined ps

/-- The claim-side reading of the PDF contract: the page texts
concatenated in order with no separator. -/
def pdf_concat : List String → String
  | [] => ""
  | p :: ps => p ++ pdf_concat ps

end SummariserApp

namespace SummariserApp

/-- Accumulator form of the DOCX extraction loop: folding
`text += para + "\n"` over the paragraphs starting from `a` yields `a`
followed by the newline-terminated paragraphs in order. -/
theorem docx_foldl_eq (paras : List String) (a : String) :
    paras.foldl (fun text para => text ++ para ++ "\n") a = a ++ docx_joined paras := by
  induction paras generalizing a with
  | nil => simp [docx_joined]
  | cons p ps ih =>
    rw [List.foldl_cons, ih, docx_joined]
    simp [String.append_assoc]

/-- Accumulator form of the PDF extraction loop: folding
`text += page.get_text()` over the pages starting from `a` yields `a`
followed by the page texts concatenated in order. -/
theorem pdf_foldl_eq (pages : List String) (a : String) :
    pages.foldl (fun text page => text ++ page) a = a ++ pdf_concat pages := by
  induction pages generalizing a with
  | cons p ps ih =>
    rw [List.foldl_cons, ih, pdf_concat]
    simp [String.append_assoc]
  | nil => simp [pdf_concat]

/-- Claim C1, counterexample: an Upload whose extraction yields the
empty string (a zero-page PDF) does NOT leave the prior session state
untouched — `full_notes_text` and `uploaded_file_name` are overwritten,
so the resulting state differs from the prior one. -/
theorem C1_counterexample :
    (upload_handler DocType.pdf (fun _ => Except.ok []) (fun _ => Except.ok [])
        { full_notes_text := "old notes", summarized_text := "old sum",
          uploaded_file_name := "old.pdf" } [] "new.pdf").1 ≠
      { full_notes_text := "old notes", summarized_text := "old sum",
        uploaded_file_name := "old.pdf" } := by
  decide

/-- Claim C1, amended: for every Upload event whose extraction yields
an empty string, the controller surfaces the warning banner, but the
prior state is overwritten rather than left untouched:
`full_notes_text` becomes `""` and `uploaded_file_name` becomes the new
file's name (only `summarized_text` is preserved). -/
theorem C1_upload_empty_overwrites (doc_type : DocType)
    (fitz_open document_open : ParseFun) (s : SessionState)
    (file_bytes : Bytes) (file_name : String)
    (h : selected_extract doc_type fitz_open document_open file_bytes = "") :
    upload_handler doc_type fitz_open document_open s file_bytes file_name =
      ({ s with full_notes_text := "", uploaded_file_name := file_name },
       [Msg.warning upload_warning_msg]) := by
  simp [upload_handler, h]

/-- Claim C1, witness: the amended statement at a concrete empty-result
upload over a non-empty prior state. -/
theorem C1_upload_empty_overwrites_witness :
    upload_handler DocType.pdf (fun _ => Except.ok []) (fun _ => Except.ok [])
        { full_notes_text := "old notes", summarized_text := "old sum",
          uploaded_file_name := "old.pdf" } [] "new.pdf" =
      ({ full_notes_text := "", summarized_text := "old sum",
         uploaded_file_name := "new.pdf" },
       [Msg.warning upload_warning_msg]) :=
  C1_upload_empty_overwrites DocType.pdf (fun _ => Except.ok []) (fun _ => Except.ok [])
    { full_notes_text := "old notes", summarized_text := "old sum",
      uploaded_file_name := "old.pdf" } [] "new.pdf" rfl

/-- Claim C2, counterexample: Summarize clicked with empty
`full_notes_text` AND a missing credential shows the missing-key error
banner, and the EmptyInput warning is not among the messages — so the
warning is not what the user sees in every no-prior-extraction case. -/
theorem C2_counterexample :
    (summarize_handler "" (fun _ => Except.error "net") initState).2 =
        [Msg.error missing_key_msg] ∧
      Msg.warning empty_input_msg ∉
        (summarize_handler "" (fun _ => Except.error "net") initState).2 := by
  decide

/-- Claim C2, amended: whenever Summarize is clicked with empty
`full_notes_text` AND a configured credential, the EmptyInput warning
banner is the (only) message shown and the state is unchanged; with no
credential the missing-key error takes precedence instead. -/
theorem C2_empty_input_warning (GEMINI_API_KEY : String)
    (generate_content : String → Except String String) (s : SessionState)
    (hkey : GEMINI_API_KEY ≠ "") (htext : s.full_notes_text = "") :
    summarize_handler GEMINI_API_KEY generate_content s =
      (s, [Msg.warning empty_input_msg]) := by
  simp [summarize_handler, htext, hkey]

/-- Claim C2, witness: the amended statement at a concrete state with
no extracted text and a configured key. -/
theorem C2_empty_input_warning_witness :
    summarize_handler "k" (fun _ => Except.ok "S") initState =
      (initState, [Msg.warning empty_input_msg]) :=
  C2_empty_input_warning "k" (fun _ => Except.ok "S") initState (by decide) rfl

/-- Claim C3: Summarize leaves the whole session state unchanged
whenever a precondition fails — when `full_notes_text` is empty
(whatever the credential) or the credential is absent (whatever the
text). -/
theorem C3_summarize_noop (GEMINI_API_KEY : String)
    (generate_content : String → Except String String) (s : SessionState)
    (h : s.full_notes_text = "" ∨ GEMINI_API_KEY = "") :
    (summarize_handler GEMINI_API_KEY generate_content s).1 = s := by
  rcases h with h | h
  · simp [summarize_handler, h]
    split <;> rfl
  · simp [summarize_handler, h]

/-- Claim C3, witness: the no-op at the initial state with a configured
key. -/
theorem C3_summarize_noop_witness :
    (summarize_handler "k" (fun _ => Except.ok "S") initState).1 = initState :=
  C3_summarize_noop "k" (fun _ => Except.ok "S") initState (Or.inl rfl)

/-- Claim C4: whenever the backend call raises during a Summarize
attempt, `summarized_text` is reset to `""` — the prior summary is
cleared, not retained (the rest of the state is unchanged). -/
theorem C4_failed_summarize_clears (GEMINI_API_KEY : String)
    (generate_content : String → Except String String) (s : SessionState) (e : String)
    (htext : s.full_notes_text ≠ "") (hkey : GEMINI_API_KEY ≠ "")
    (hfail : generate_content (prompt_template ++ s.full_notes_text) = Except.error e) :
    (summarize_handler GEMINI_API_KEY generate_content s).1 =
      { s with summarized_text := "" } := by
  simp [summarize_handler, htext, hkey, hfail]

/-- Claim C4, witness: a raising stub backend clears a previously
stored non-empty summary. -/
theorem C4_failed_summarize_clears_witness :
    (summarize_handler "k" (fun _ => Except.error "boom")
        { full_notes_text := "notes", summarized_text := "old sum",
          uploaded_file_name := "n.pdf" }).1 =
      { full_notes_text := "notes", summarized_text := "",
        uploaded_file_name := "n.pdf" } :=
  C4_failed_summarize_clears "k" (fun _ => Except.error "boom")
    { full_notes_text := "notes", summarized_text := "old sum",
      uploaded_file_name := "n.pdf" } "boom" (by decide) (by decide) rfl

/-- Claim C5: for every well-formed DOCX whose paragraphs in document
order are P1..Pn, `extract_text_docx` returns exactly
P1 ++ "\n" ++ ... ++ Pn ++ "\n". -/
theorem C5_docx_extraction (document_open : ParseFun) (file_bytes : Bytes)
    (paras : List String) (h : document_open file_bytes = Except.ok paras) :
    extract_text_docx document_open file_bytes = docx_joined paras := by
  simp [extract_text_docx, h, docx_foldl_eq]

/-- Claim C5, witness: a two-paragraph document yields
"alpha\nbeta\n". -/
theorem C5_docx_extraction_witness :
    extract_text_docx (fun _ => Except.ok ["alpha", "beta"]) [] = "alpha\nbeta\n" :=
  (C5_docx_extraction (fun _ => Except.ok ["alpha", "beta"]) [] ["alpha", "beta"] rfl).trans
    (by decide)

/-- Claim C6: for every well-formed PDF, `extract_text_pdf` returns the
concatenation of the page texts in page order with no separator
inserted between pages. -/
theorem C6_pdf_extraction (fitz_open : ParseFun) (file_bytes : Bytes)
    (pages : List String) (h : fitz_open file_bytes = Except.ok pages) :
    extract_text_pdf fitz_open file_bytes = pdf_concat pages := by
  simp [extract_text_pdf, h, pdf_foldl_eq]

/-- Claim C6, witness: a two-page document yields the bare
concatenation of the two page texts. -/
theorem C6_pdf_extraction_witness :
    extract_text_pdf (fun _ => Except.ok ["page one ", "page two"]) [] =
      "page one page two" :=
  (C6_pdf_extraction (fun _ => Except.ok ["page one ", "page two"]) []
      ["page one ", "page two"] rfl).trans (by decide)

/-- Claim C7: for every input on which parsing fails (the library call
raises), each extractor catches the failure and returns the empty
string; being total Lean functions, they let no exception escape. -/
theorem C7_malformed_returns_empty (fitz_open document_open : ParseFun)
    (file_bytes : Bytes) (e1 e2 : String)
    (h1 : fitz_open file_bytes = Except.error e1)
    (h2 : document_open file_bytes = Except.error e2) :
    extract_text_pdf fitz_open file_bytes = "" ∧
      extract_text_docx document_open file_bytes = "" := by
  constructor <;> simp [extract_text_pdf, extract_text_docx, h1, h2]

/-- Claim C7, witness: both extractors return `""` on a concrete
malformed input. -/
theorem C7_malformed_returns_empty_witness :
    extract_text_pdf (fun _ => Except.error "cannot open broken document") [0, 1, 2] = "" ∧
      extract_text_docx (fun _ => Except.error "cannot open broken document") [0, 1, 2] = "" :=
  C7_malformed_returns_empty (fun _ => Except.error "cannot open broken document")
    (fun _ => Except.error "cannot open broken document") [0, 1, 2]
    "cannot open broken document" "cannot open broken document" rfl rfl

/-- Claim C8: for every Summarize invocation with non-empty extracted
text and a configured credential whose backend call succeeds, the
stored summary equals the backend response's text payload exactly,
unmodified. -/
theorem C8_success_stores_payload (GEMINI_API_KEY : String)
    (generate_content : String → Except String String) (s : SessionState) (S : String)
    (htext : s.full_notes_text ≠ "") (hkey : GEMINI_API_KEY ≠ "")
    (hok : generate_content (prompt_template ++ s.full_notes_text) = Except.ok S) :
    (summarize_handler GEMINI_API_KEY generate_content s).1 =
      { s with summarized_text := S } := by
  simp [summarize_handler, htext, hkey, hok]

/-- Claim C8, witness: a stub backend returning "S" yields
`summarized_text = "S"`. -/
theorem C8_success_stores_payload_witness :
    (summarize_handler "k" (fun _ => Except.ok "S")
        { full_notes_text := "T", summarized_text := "",
          uploaded_file_name := "x.pdf" }).1 =
      { full_notes_text := "T", summarized_text := "S",
        uploaded_file_name := "x.pdf" } :=
  C8_success_stores_payload "k" (fun _ => Except.ok "S")
    { full_notes_text := "T", summarized_text := "", uploaded_file_name := "x.pdf" }
    "S" (by decide) (by decide) rfl

/-- Claim C9: whenever a non-empty summary is offered for download, the
download content is the verbatim summary and the file name is
"summarized_notes_" ++ (stored filename with its extension stripped) ++
".txt"; in particular, for stored filename "biology101.pdf" the name is
exactly "summarized_notes_biology101.txt". -/
theorem C9_download_artifact (s : SessionState) (h : s.summarized_text ≠ "") :
    summary_display s =
        some (s.summarized_text,
          "summarized_notes_" ++ splitext_root s.uploaded_file_name ++ ".txt") ∧
      (s.uploaded_file_name = "biology101.pdf" →
        summary_display s = some (s.summarized_text, "summarized_notes_biology101.txt")) := by
  have hb : splitext_root "biology101.pdf" = "biology101" := by decide
  refine ⟨by simp [summary_display, h], fun h2 => ?_⟩
  simp [summary_display, h, h2, hb]

/-- Claim C9, witness: the download pair at a concrete state whose
stored filename is "biology101.pdf". -/
theorem C9_download_artifact_witness :
    summary_display
        { full_notes_text := "T", summarized_text := "S",
          uploaded_file_name := "biology101.pdf" } =
        some ("S", "summarized_notes_" ++ splitext_root "biology101.pdf" ++ ".txt") ∧
      ("biology101.pdf" = "biology101.pdf" →
        summary_display
            { full_notes_text := "T", summarized_text := "S",
              uploaded_file_name := "biology101.pdf" } =
          some ("S", "summarized_notes_biology101.txt")) :=
  C9_download_artifact
    { full_notes_text := "T", summarized_text := "S",
      uploaded_file_name := "biology101.pdf" } (by decide)

/-- Claim C10: after a successful Upload of a new file over a session
holding a non-empty summary, without clicking Summarize, the stale
summary stays stored and displayed, while the offered download name is
derived from the NEW file's base name. -/
theorem C10_stale_summary_new_name (doc_type : DocType)
    (fitz_open document_open : ParseFun) (s : SessionState)
    (file_bytes : Bytes) (file_name : String)
    (hsum : s.summarized_text ≠ "")
    (hnew : selected_extract doc_type fitz_open document_open file_bytes ≠ "") :
    (upload_handler doc_type fitz_open document_open s file_bytes file_name).1.summarized_text =
        s.summarized_text ∧
      summary_display (upload_handler doc_type fitz_open document_open s file_bytes file_name).1 =
        some (s.summarized_text,
          "summarized_notes_" ++ splitext_root file_name ++ ".txt") := by
  constructor <;> simp [upload_handler, summary_display, hnew, hsum]

/-- Claim C10, witness: a session summarised from "old.docx" uploads
"new.pdf" successfully; the old summary is still offered, under the
name derived from "new.pdf". -/
theorem C10_stale_summary_new_name_witness :
    (upload_handler DocType.pdf (fun _ => Except.ok ["new text"]) (fun _ => Except.ok [])
          { full_notes_text := "old text", summarized_text := "OLD SUMMARY",
            uploaded_file_name := "old.docx" } [] "new.pdf").1.summarized_text =
        "OLD SUMMARY" ∧
      summary_display
          (upload_handler DocType.pdf (fun _ => Except.ok ["new text"]) (fun _ => Except.ok [])
            { full_notes_text := "old text", summarized_text := "OLD SUMMARY",
              uploaded_file_name := "old.docx" } [] "new.pdf").1 =
        some ("OLD SUMMARY", "summarized_notes_" ++ splitext_root "new.pdf" ++ ".txt") :=
  C10_stale_summary_new_name DocType.pdf (fun _ => Except.ok ["new text"])
    (fun _ => Except.ok [])
    { full_notes_text := "old text", summarized_text := "OLD SUMMARY",
      uploaded_file_name := "old.docx" } [] "new.pdf" (by decide) (by decide)

end SummariserApp
